import Mathlib

/-!
Verification of the message-broadcast service in `src/app.py`
(Next-evel-mark/GEMINI-AI-BOT).

The file shallowly embeds the Python source: WebSocket handles are `Nat`,
Python dicts are association lists, fallible Python code returns `Except`,
and the `jose` / `passlib` third-party primitives are embedded as idealized
models of their documented contracts (an HMAC signature is recomputed and
compared for equality; a bcrypt hash is an opaque string distinct from the
plaintext).
-/

namespace App

/-- A Python exception, as observed by a caller. -/
inductive PyError where
  | valueError
  | sendError (msg : String)
deriving DecidableEq, Repr

/-- Association-list lookup: first binding wins, like a Python dict
(whose keys are unique, so the first binding is the only one). -/
def dictGet? {α β : Type} [DecidableEq α] : List (α × β) → α → Option β
  | [], _ => none
  | (k, v) :: rest, k' => if k = k' then some v else dictGet? rest k'

/-- Membership test `k in d` for a Python dict. -/
def dictContains {α β : Type} [DecidableEq α] (d : List (α × β)) (k : α) : Bool :=
  (dictGet? d k).isSome

/-- Assignment `d[k] = v` for a Python dict: update in place if the key is present,
otherwise append (Python dicts keep insertion order). -/
def dictInsert {α β : Type} [DecidableEq α] : List (α × β) → α → β → List (α × β)
  | [], k, v => [(k, v)]
  | (k₀, v₀) :: rest, k, v =>
      if k₀ = k then (k, v) :: rest else (k₀, v₀) :: dictInsert rest k v

/-- Model of `d.pop(k, None)` for a Python dict: remove the binding if present. -/
def dictPop {α β : Type} [DecidableEq α] : List (α × β) → α → List (α × β)
  | [], _ => []
  | (k₀, v₀) :: rest, k => if k₀ = k then rest else (k₀, v₀) :: dictPop rest k

/-- Python `list.remove(x)`: delete the first occurrence of `x`, or raise
`ValueError` if `x` is absent. -/
def pyListRemove {α : Type} [DecidableEq α] (l : List α) (x : α) :
    Except PyError (List α) :=
  if x ∈ l then .ok (l.erase x) else .error .valueError

/-- The state of `ConnectionManager` (src/app.py lines 72-75): the ordered
list `active_connections` of WebSocket handles and the dict
`usernames : WebSocket -> str`. -/
structure ConnectionManager where
  active_connections : List Nat
  usernames : List (Nat × String)
deriving DecidableEq, Repr

/-- The fresh `ConnectionManager()` — both structures start empty. -/
def ConnectionManager.empty : ConnectionManager := ⟨[], []⟩

/-- Model of `ConnectionManager.connect` (lines 77-80): after `websocket.accept()`,
append the handle to `active_connections` and record its username. -/
def ConnectionManager.connect (m : ConnectionManager) (ws : Nat) (username : String) :
    ConnectionManager :=
  { active_connections := m.active_connections ++ [ws]
    usernames := dictInsert m.usernames ws username }

/-- Model of `ConnectionManager.disconnect` (lines 82-84):
`self.active_connections.remove(websocket)` — which raises `ValueError`
when the handle is absent — then `self.usernames.pop(websocket, None)`. -/
def ConnectionManager.disconnect (m : ConnectionManager) (ws : Nat) :
    Except PyError ConnectionManager :=
  match pyListRemove m.active_connections ws with
  | .error e => .error e
  | .ok l => .ok { active_connections := l, usernames := dictPop m.usernames ws }

/-- The formatted broadcast payload `f"{sender}: {message}"` (line 89). -/
def fmtMessage (sender message : String) : String := sender ++ ": " ++ message

/-- The body of the `for` loop of `ConnectionManager.broadcast`
(lines 87-91): attempt `connection.send_text(msg)` for each connection in
order, recording every attempt; `except Exception: pass` swallows any
send failure, so the loop itself never raises.  `send` is the environment:
the outcome of `send_text` on each handle. -/
def broadcastLoop (send : Nat → String → Except PyError Unit) :
    List Nat → String → Except PyError (List (Nat × String))
  | [], _ => .ok []
  | c :: rest, msg =>
      -- try: await connection.send_text(msg)  /  except Exception: pass
      match send c msg with
      | .ok _ =>
          match broadcastLoop send rest msg with
          | .ok att => .ok ((c, msg) :: att)
          | .error e => .error e
      | .error _ =>  -- the exception is swallowed; the attempt still happened
          match broadcastLoop send rest msg with
          | .ok att => .ok ((c, msg) :: att)
          | .error e => .error e

/-- Model of `ConnectionManager.broadcast` (lines 86-91): iterate over
`active_connections` sending `f"{sender}: {message}"` to each.  The method
never mutates `self`, so the resulting manager is returned unchanged
alongside the list of delivery attempts. -/
def ConnectionManager.broadcast (m : ConnectionManager)
    (send : Nat → String → Except PyError Unit) (message sender : String) :
    Except PyError (ConnectionManager × List (Nat × String)) :=
  match broadcastLoop send m.active_connections (fmtMessage sender message) with
  | .ok att => .ok (m, att)
  | .error e => .error e

/-- The loop swallows every per-connection failure: it always succeeds and
records one attempt per listed connection, in order. -/
theorem broadcastLoop_ok (send : Nat → String → Except PyError Unit)
    (conns : List Nat) (msg : String) :
    broadcastLoop send conns msg = .ok (conns.map (fun c => (c, msg))) := by
  induction conns with
  | nil => rfl
  | cons c rest ih =>
      simp only [broadcastLoop, ih]
      cases send c msg <;> simp

theorem broadcast_eq (m : ConnectionManager)
    (send : Nat → String → Except PyError Unit) (message sender : String) :
    m.broadcast send message sender =
      .ok (m, m.active_connections.map (fun c => (c, fmtMessage sender message))) := by
  simp [ConnectionManager.broadcast, broadcastLoop_ok]

/-- A send environment in which delivery to handle 1 raises and every other
delivery succeeds — a closed socket on connection 1. -/
def failSendOn1 : Nat → String → Except PyError Unit :=
  fun c _ => if c = 1 then .error (.sendError "closed socket") else .ok ()

/-- C1: if sending to one registered connection fails (raises), `broadcast`
still attempts delivery to every registered connection — the attempt on the failing one included — and returns normally (`.ok`) to the caller: the
per-connection `except Exception: pass` swallows the delivery failure. -/
theorem C1_broadcast_swallows_failure (m : ConnectionManager)
    (send : Nat → String → Except PyError Unit) (message sender : String)
    (c : Nat) (hc : c ∈ m.active_connections) (e : PyError)
    (hfail : send c (fmtMessage sender message) = .error e) :
    m.broadcast send message sender =
      .ok (m, m.active_connections.map (fun c => (c, fmtMessage sender message))) :=
  broadcast_eq m send message sender

theorem C1_witness :
    (1 : Nat) ∈ (ConnectionManager.mk [1, 2] [(1, "alice"), (2, "bob")]).active_connections ∧
    failSendOn1 1 (fmtMessage "alice" "hi") = .error (.sendError "closed socket") ∧
    (ConnectionManager.mk [1, 2] [(1, "alice"), (2, "bob")]).broadcast failSendOn1 "hi" "alice" =
      .ok (ConnectionManager.mk [1, 2] [(1, "alice"), (2, "bob")],
           [(1, "alice: hi"), (2, "alice: hi")]) :=
  ⟨by decide, rfl,
   C1_broadcast_swallows_failure (ConnectionManager.mk [1, 2] [(1, "alice"), (2, "bob")])
     failSendOn1 "hi" "alice" 1 (by decide) (.sendError "closed socket") rfl⟩

/-- How many attempts in `att` delivered the string `msg` to handle `c`. -/
def countAttempts (att : List (Nat × String)) (c : Nat) (msg : String) : Nat :=
  att.countP (fun p => p.1 == c && p.2 == msg)

theorem countAttempts_map (l : List Nat) (c : Nat) (msg : String) :
    countAttempts (l.map (fun c => (c, msg))) c msg = l.count c := by
  induction l with
  | nil => rfl
  | cons a rest ih =>
      simp only [countAttempts, List.map_cons, List.countP_cons, List.count_cons] at *
      by_cases hac : a = c
      · subst hac
        simp [ih]
      · simp [hac, ih]

/-- C2: with the handle of the sender registered and the registry free of
duplicates, `broadcast` attempts delivery of exactly `"<sender>: <payload>"`
to each registered connection — that of the sender included — exactly once
each. -/
theorem C2_broadcast_delivers_to_all (m : ConnectionManager)
    (send : Nat → String → Except PyError Unit) (message sender : String)
    (sws : Nat) (hmem : sws ∈ m.active_connections)
    (hnodup : m.active_connections.Nodup) :
    ∃ att, m.broadcast send message sender = .ok (m, att) ∧
      att.length = m.active_connections.length ∧
      (∀ c ∈ m.active_connections,
        countAttempts att c (fmtMessage sender message) = 1) ∧
      countAttempts att sws (fmtMessage sender message) = 1 := by
  refine ⟨m.active_connections.map (fun c => (c, fmtMessage sender message)),
    broadcast_eq m send message sender, by simp, ?_, ?_⟩
  · intro c hc
    rw [countAttempts_map]
    exact List.count_eq_one_of_mem hnodup hc
  · rw [countAttempts_map]
    exact List.count_eq_one_of_mem hnodup hmem

theorem C2_witness :
    (1 : Nat) ∈ (ConnectionManager.mk [1, 2, 3] [(1, "alice"), (2, "bob"), (3, "carol")]).active_connections ∧
    (ConnectionManager.mk [1, 2, 3] [(1, "alice"), (2, "bob"), (3, "carol")]).active_connections.Nodup ∧
    (∃ att,
      (ConnectionManager.mk [1, 2, 3] [(1, "alice"), (2, "bob"), (3, "carol")]).broadcast
          (fun _ _ => .ok ()) "hi" "alice" =
        .ok (ConnectionManager.mk [1, 2, 3] [(1, "alice"), (2, "bob"), (3, "carol")], att) ∧
      att.length =
        (ConnectionManager.mk [1, 2, 3] [(1, "alice"), (2, "bob"), (3, "carol")]).active_connections.length ∧
      (∀ c ∈ (ConnectionManager.mk [1, 2, 3] [(1, "alice"), (2, "bob"), (3, "carol")]).active_connections,
        countAttempts att c (fmtMessage "alice" "hi") = 1) ∧
      countAttempts att 1 (fmtMessage "alice" "hi") = 1) :=
  ⟨by decide, by decide,
   C2_broadcast_delivers_to_all
     (ConnectionManager.mk [1, 2, 3] [(1, "alice"), (2, "bob"), (3, "carol")])
     (fun _ _ => .ok ()) "hi" "alice" 1 (by decide) (by decide)⟩

/-- C3 counterexample: in a registry holding only connection 1, delivery to
connection 1 fails, yet after the broadcast completes the registry still
contains connection 1 — `broadcast` (lines 86-91) never deregisters anyone:
the `except` clause is `pass`, with no call to `disconnect`. -/
theorem C3_counterexample :
    failSendOn1 1 (fmtMessage "alice" "hi") = .error (.sendError "closed socket") ∧
    (ConnectionManager.mk [1] [(1, "alice")]).broadcast failSendOn1 "hi" "alice" =
      .ok (ConnectionManager.mk [1] [(1, "alice")], [(1, "alice: hi")]) ∧
    (1 : Nat) ∈ (ConnectionManager.mk [1] [(1, "alice")]).active_connections :=
  ⟨rfl, rfl, by decide⟩

/-- C3 amended: a delivery failure during `broadcast` does NOT trigger
deregistration — the method leaves the registry untouched, so the failing
connection is still registered afterwards. -/
theorem C3_no_deregistration_on_failure (m : ConnectionManager)
    (send : Nat → String → Except PyError Unit) (message sender : String)
    (c : Nat) (hc : c ∈ m.active_connections) (e : PyError)
    (hfail : send c (fmtMessage sender message) = .error e) :
    ∃ att, m.broadcast send message sender = .ok (m, att) ∧
      c ∈ m.active_connections :=
  ⟨m.active_connections.map (fun x => (x, fmtMessage sender message)),
   broadcast_eq m send message sender, hc⟩

theorem C3_no_deregistration_on_failure_witness :
    (1 : Nat) ∈ (ConnectionManager.mk [1, 2] [(1, "alice"), (2, "bob")]).active_connections ∧
    failSendOn1 1 (fmtMessage "alice" "hi") = .error (.sendError "closed socket") ∧
    (∃ att,
      (ConnectionManager.mk [1, 2] [(1, "alice"), (2, "bob")]).broadcast
          failSendOn1 "hi" "alice" =
        .ok (ConnectionManager.mk [1, 2] [(1, "alice"), (2, "bob")], att) ∧
      (1 : Nat) ∈ (ConnectionManager.mk [1, 2] [(1, "alice"), (2, "bob")]).active_connections) :=
  ⟨by decide, rfl,
   C3_no_deregistration_on_failure
     (ConnectionManager.mk [1, 2] [(1, "alice"), (2, "bob")])
     failSendOn1 "hi" "alice" 1 (by decide) (.sendError "closed socket") rfl⟩

/-- C4 counterexample: `disconnect` on a handle that is not registered is
not a no-op — `self.active_connections.remove(websocket)` raises
`ValueError` (here: `.error .valueError`), so calling `disconnect` twice
for the same handle raises on the second call. -/
theorem C4_counterexample :
    ConnectionManager.empty.disconnect 0 = .error .valueError ∧
    ((ConnectionManager.mk [7] [(7, "alice")]).disconnect 7).bind
        (fun m' => m'.disconnect 7) = .error .valueError :=
  ⟨rfl, rfl⟩

/-- C4 amended: `disconnect` removes a registered handle, but when the
handle is absent it raises `ValueError` instead of returning normally;
hence a second `disconnect` of a handle just removed (with a
duplicate-free registry) raises rather than being idempotent. -/
theorem C4_disconnect_raises_when_absent (m : ConnectionManager) (ws : Nat) :
    (ws ∉ m.active_connections → m.disconnect ws = .error .valueError) ∧
    (m.active_connections.Nodup →
      ∀ m₁, m.disconnect ws = .ok m₁ → m₁.disconnect ws = .error .valueError) := by
  constructor
  · intro h
    simp [ConnectionManager.disconnect, pyListRemove, h]
  · intro hnodup m₁ h₁
    have hmem : ws ∈ m.active_connections := by
      by_contra hab
      simp [ConnectionManager.disconnect, pyListRemove, hab] at h₁
    have hactive : m₁.active_connections = m.active_connections.erase ws := by
      simp [ConnectionManager.disconnect, pyListRemove, hmem] at h₁
      rw [← h₁]
    have habs : ws ∉ m₁.active_connections := by
      rw [hactive]
      exact hnodup.not_mem_erase
    simp [ConnectionManager.disconnect, pyListRemove, habs]

theorem C4_disconnect_raises_when_absent_witness :
    (5 : Nat) ∉ (ConnectionManager.mk [7] [(7, "alice")]).active_connections ∧
    (ConnectionManager.mk [7] [(7, "alice")]).disconnect 5 = .error .valueError :=
  ⟨by decide,
   (C4_disconnect_raises_when_absent (ConnectionManager.mk [7] [(7, "alice")]) 5).1
     (by decide)⟩

/-! ### Tokens (src/app.py lines 11-37)

The `jose` library is external, so its HMAC-signed JWTs are embedded as an
idealized model of the documented contract: a well-formed token carries a
header algorithm, a claims payload and a signature; `jwt.decode` re-signs
the payload with the given key and algorithm and compares, rejecting a
token that does not parse, whose header algorithm is not in the allowed
list, whose signature does not match, or whose `exp` claim (when present)
has passed.  The signature itself is an opaque string determined by
(key, algorithm, payload). -/

/-- The claims payload the app uses: an optional `"sub"` and an optional
`"exp"` (the source never sets `"exp"`). -/
structure Claims where
  sub : Option String
  exp : Option Nat
deriving DecidableEq, Repr

/-- Idealized MAC over (key, algorithm, payload). -/
def sign (key alg : String) (payload : Claims) : String :=
  key ++ "|" ++ alg ++ "|" ++
    (match payload.sub with | none => "." | some s => "s:" ++ s) ++ "|" ++
    (match payload.exp with | none => "." | some n => "e:" ++ toString n)

/-- A token presented on the wire: either a parseable JWT or undecodable
garbage. -/
inductive TokenWire where
  | jwt (alg : String) (payload : Claims) (sig : String)
  | garbage (raw : String)
deriving DecidableEq, Repr

def SECRET_KEY : String := "your_secret_key"

def ALGORITHM : String := "HS256"

/-- Model of `jwt.encode(data, key, algorithm)`. -/
def jwtEncode (payload : Claims) (key alg : String) : TokenWire :=
  .jwt alg payload (sign key alg payload)

/-- Model of `jwt.decode(token, key, algorithms)` at wall-clock time `now`:
`none` stands for a raised `JWTError`. -/
def jwtDecode (t : TokenWire) (key : String) (algs : List String) (now : Nat) :
    Option Claims :=
  match t with
  | .garbage _ => none
  | .jwt alg payload sig =>
      if alg ∈ algs ∧ sig = sign key alg payload then
        match payload.exp with
        | some e => if e ≤ now then none else some payload
        | none => some payload
      else none

/-- Model of `create_access_token` (lines 26-27): `jwt.encode(data, SECRET_KEY,
algorithm=ALGORITHM)`. -/
def create_access_token (data : Claims) : TokenWire :=
  jwtEncode data SECRET_KEY ALGORITHM

/-- Model of `decode_access_token` (lines 29-37): decode with the process-wide
secret and `[ALGORITHM]`; a missing `"sub"` claim raises `JWTError`, and
every `JWTError` is caught and turned into `None`. -/
def decode_access_token (t : TokenWire) (now : Nat) : Option String :=
  match jwtDecode t SECRET_KEY [ALGORITHM] now with
  | none => none
  | some payload => payload.sub

theorem decode_create_roundtrip (u : String) (now : Nat) :
    decode_access_token (create_access_token ⟨some u, none⟩) now = some u := by
  simp [decode_access_token, create_access_token, jwtEncode, jwtDecode]

/-- C6: a token issued for `u` decodes back to `u` at every later time (no
expiry claim is set, so validity is time-independent); a token with a
tampered signature, a wrong algorithm, a missing subject claim, or
undecodable content decodes to invalid (`none`). -/
theorem C6_token_roundtrip :
    (∀ (u : String) (now : Nat),
      decode_access_token (create_access_token ⟨some u, none⟩) now = some u) ∧
    (∀ (alg : String) (payload : Claims) (sig : String) (now : Nat),
      sig ≠ sign SECRET_KEY alg payload →
      decode_access_token (.jwt alg payload sig) now = none) ∧
    (∀ (alg : String) (payload : Claims) (sig : String) (now : Nat),
      alg ≠ ALGORITHM →
      decode_access_token (.jwt alg payload sig) now = none) ∧
    (∀ (data : Claims) (now : Nat), data.sub = none →
      decode_access_token (create_access_token data) now = none) ∧
    (∀ (raw : String) (now : Nat),
      decode_access_token (.garbage raw) now = none) := by
  refine ⟨?_, ?_, ?_, ?_, ?_⟩
  · exact decode_create_roundtrip
  · intro alg payload sig now hsig
    simp [decode_access_token, jwtDecode, hsig]
  · intro alg payload sig now halg
    simp [decode_access_token, jwtDecode, halg]
  · intro data now hsub
    cases he : data.exp with
    | none => simp [decode_access_token, create_access_token, jwtEncode, jwtDecode, he, hsub]
    | some e =>
        by_cases hle : e ≤ now <;>
          simp [decode_access_token, create_access_token, jwtEncode, jwtDecode, he, hle, hsub]
  · intro raw now
    rfl

theorem C6_token_roundtrip_witness :
    decode_access_token (create_access_token ⟨some "alice", none⟩) 0 = some "alice" ∧
    decode_access_token (create_access_token ⟨some "alice", none⟩) 999999 = some "alice" ∧
    ("forged" ≠ sign SECRET_KEY ALGORITHM ⟨some "alice", none⟩ ∧
      decode_access_token (.jwt ALGORITHM ⟨some "alice", none⟩ "forged") 0 = none) ∧
    ("HS512" ≠ ALGORITHM ∧
      decode_access_token
        (.jwt "HS512" ⟨some "alice", none⟩ (sign SECRET_KEY "HS512" ⟨some "alice", none⟩)) 0 = none) ∧
    decode_access_token (create_access_token ⟨none, none⟩) 0 = none ∧
    decode_access_token (.garbage "not-a-jwt") 0 = none :=
  ⟨C6_token_roundtrip.1 "alice" 0,
   C6_token_roundtrip.1 "alice" 999999,
   ⟨by decide, C6_token_roundtrip.2.1 ALGORITHM ⟨some "alice", none⟩ "forged" 0 (by decide)⟩,
   ⟨by decide, C6_token_roundtrip.2.2.1 "HS512" ⟨some "alice", none⟩
      (sign SECRET_KEY "HS512" ⟨some "alice", none⟩) 0 (by decide)⟩,
   C6_token_roundtrip.2.2.2.1 ⟨none, none⟩ 0 rfl,
   C6_token_roundtrip.2.2.2.2 "not-a-jwt" 0⟩

/-! ### Credential store (src/app.py lines 15-24 and 55-61)

The bcrypt of `passlib` is external; it is embedded as an idealized one-way
hash whose output is the digest marker `"$2b$12$"` followed by a digest —
the model keeps the one property the claims use: the stored string is the
hash, never equal to the plaintext (a bcrypt digest is strictly longer
than the input here, as the real one has a fixed 60-character form). -/

/-- Model of `get_password_hash` (lines 23-24), idealized bcrypt. -/
def get_password_hash (password : String) : String :=
  "$2b$12$" ++ password

/-- A record of `users_db`, holding the username and the password hash. -/
structure UserRecord where
  username : String
  hashed_password : String
deriving DecidableEq, Repr

/-- The store `users_db` (line 18), mapping a username to its record. -/
abbrev UsersDb := List (String × UserRecord)

/-- A raised `HTTPException` with its status code and detail. -/
structure HTTPErr where
  status_code : Nat
  detail : String
deriving DecidableEq, Repr

/-- Model of `POST /register` (lines 55-61), state-passing: returns the store after
the call together with either the success status 201 or the raised
`HTTPException`. -/
def register (db : UsersDb) (username password : String) :
    UsersDb × Except HTTPErr Nat :=
  if dictContains db username then
    (db, .error ⟨400, "Username already registered"⟩)
  else
    (dictInsert db username ⟨username, get_password_hash password⟩, .ok 201)

theorem length_get_password_hash (p : String) :
    (get_password_hash p).length = 7 + p.length := by
  have h7 : ("$2b$12$" : String).length = 7 := rfl
  simp [get_password_hash, String.length_append, h7]

theorem get_password_hash_ne (p : String) : get_password_hash p ≠ p := by
  intro h
  have := congrArg String.length h
  rw [length_get_password_hash] at this
  omega

theorem dictGet?_dictInsert_self {α β : Type} [DecidableEq α]
    (d : List (α × β)) (k : α) (v : β) :
    dictGet? (dictInsert d k v) k = some v := by
  induction d with
  | nil => simp [dictInsert, dictGet?]
  | cons kv rest ih =>
      by_cases hk : kv.1 = k
      · simp [dictInsert, dictGet?, hk]
      · simp [dictInsert, dictGet?, hk, ih]

/-- C7: registering a taken username fails with the 400 duplicate error and
leaves the store — in particular the stored hash — unchanged; registering a
fresh username succeeds with 201 and stores the hash of the password, which
is never the plaintext itself. -/
theorem C7_register_duplicate_and_fresh (db : UsersDb) (u p : String) :
    (∀ r, dictGet? db u = some r →
      register db u p = (db, .error ⟨400, "Username already registered"⟩) ∧
      dictGet? (register db u p).1 u = some r) ∧
    (dictGet? db u = none →
      (register db u p).2 = .ok 201 ∧
      dictGet? (register db u p).1 u = some ⟨u, get_password_hash p⟩ ∧
      get_password_hash p ≠ p) := by
  constructor
  · intro r hr
    have hc : dictContains db u = true := by simp [dictContains, hr]
    constructor
    · simp [register, hc]
    · simp [register, hc, hr]
  · intro hnone
    have hc : dictContains db u = false := by simp [dictContains, hnone]
    refine ⟨by simp [register, hc], ?_, get_password_hash_ne p⟩
    simp [register, hc, dictGet?_dictInsert_self]

theorem C7_register_duplicate_and_fresh_witness :
    (dictGet? ([] : UsersDb) "bob" = none ∧
      (register ([] : UsersDb) "bob" "secret123").2 = .ok 201 ∧
      dictGet? (register ([] : UsersDb) "bob" "secret123").1 "bob" =
        some ⟨"bob", get_password_hash "secret123"⟩ ∧
      get_password_hash "secret123" ≠ "secret123") ∧
    (dictGet? [("bob", UserRecord.mk "bob" (get_password_hash "secret123"))] "bob" =
      some (UserRecord.mk "bob" (get_password_hash "secret123")) ∧
      register [("bob", UserRecord.mk "bob" (get_password_hash "secret123"))] "bob" "other" =
        ([("bob", UserRecord.mk "bob" (get_password_hash "secret123"))],
         .error ⟨400, "Username already registered"⟩) ∧
      dictGet? (register [("bob", UserRecord.mk "bob" (get_password_hash "secret123"))] "bob" "other").1 "bob" =
        some (UserRecord.mk "bob" (get_password_hash "secret123"))) :=
  ⟨⟨rfl, (C7_register_duplicate_and_fresh [] "bob" "secret123").2 rfl⟩,
   ⟨rfl, (C7_register_duplicate_and_fresh
      [("bob", UserRecord.mk "bob" (get_password_hash "secret123"))] "bob" "other").1
      (UserRecord.mk "bob" (get_password_hash "secret123")) rfl⟩⟩

/-! ### HTTP-side and WebSocket-side authentication
(src/app.py lines 39-43 and 95-107) -/

/-- Model of `get_current_user` (lines 39-43): decode the bearer token; raise 401 if
it is invalid or its subject is not in `users_db`. -/
def get_current_user (token : TokenWire) (db : UsersDb) (now : Nat) :
    Except HTTPErr String :=
  match decode_access_token token now with
  | none => .error ⟨401, "Invalid authentication credentials"⟩
  | some username =>
      if dictContains db username then .ok username
      else .error ⟨401, "Invalid authentication credentials"⟩

/-- Outcome of the admission prefix of `websocket_endpoint`. -/
inductive WsOutcome where
  | closed (code : Nat) (m : ConnectionManager)
  | accepted (username : String) (m : ConnectionManager)
deriving DecidableEq, Repr

/-- Model of `websocket_endpoint` (lines 95-101) up to admission: decode the query
token; on failure `websocket.close(code=1008)` and return without touching
the manager; on success `manager.connect(websocket, username)`.  Note it
never consults `users_db`. -/
def websocket_endpoint_accept (m : ConnectionManager) (ws : Nat)
    (token : TokenWire) (now : Nat) : WsOutcome :=
  match decode_access_token token now with
  | none => .closed 1008 m
  | some username => .accepted username (m.connect ws username)

/-- C8: a connection presenting a token that fails validation is closed
with policy-violation code 1008, the manager is left untouched (connect is
never reached), and the connection is never registered. -/
theorem C8_invalid_token_refused (m : ConnectionManager) (ws : Nat)
    (token : TokenWire) (now : Nat)
    (h : decode_access_token token now = none) :
    websocket_endpoint_accept m ws token now = .closed 1008 m ∧
    ∀ u m', websocket_endpoint_accept m ws token now ≠ .accepted u m' := by
  constructor
  · simp [websocket_endpoint_accept, h]
  · intro u m'
    simp [websocket_endpoint_accept, h]

theorem C8_invalid_token_refused_witness :
    decode_access_token (.garbage "junk") 0 = none ∧
    (websocket_endpoint_accept ConnectionManager.empty 1 (.garbage "junk") 0 =
      .closed 1008 ConnectionManager.empty ∧
     ∀ u m', websocket_endpoint_accept ConnectionManager.empty 1 (.garbage "junk") 0 ≠
       .accepted u m') :=
  ⟨rfl, C8_invalid_token_refused ConnectionManager.empty 1 (.garbage "junk") 0 rfl⟩

/-- C10: the streaming endpoint admits a validly signed token whose subject
was never registered in `users_db` — it checks only `decode_access_token` —
whereas the HTTP-side `get_current_user` rejects the very same token with
401 because the subject is absent from `users_db`. -/
theorem C10_ws_skips_users_db (db : UsersDb) (u : String)
    (m : ConnectionManager) (ws : Nat) (now : Nat)
    (h : dictGet? db u = none) :
    websocket_endpoint_accept m ws (create_access_token ⟨some u, none⟩) now =
      .accepted u (m.connect ws u) ∧
    get_current_user (create_access_token ⟨some u, none⟩) db now =
      .error ⟨401, "Invalid authentication credentials"⟩ := by
  have hdec : decode_access_token (create_access_token ⟨some u, none⟩) now = some u :=
    decode_create_roundtrip u now
  constructor
  · simp [websocket_endpoint_accept, hdec]
  · have hc : dictContains db u = false := by simp [dictContains, h]
    simp [get_current_user, hdec, hc]

theorem C10_ws_skips_users_db_witness :
    dictGet? ([] : UsersDb) "ghost" = none ∧
    (websocket_endpoint_accept ConnectionManager.empty 1
        (create_access_token ⟨some "ghost", none⟩) 0 =
      .accepted "ghost" (ConnectionManager.empty.connect 1 "ghost") ∧
     get_current_user (create_access_token ⟨some "ghost", none⟩) ([] : UsersDb) 0 =
      .error ⟨401, "Invalid authentication credentials"⟩) :=
  ⟨rfl, C10_ws_skips_users_db [] "ghost" ConnectionManager.empty 1 0 rfl⟩

/-! ### The registry invariant (C9) -/

theorem dictContains_iff_mem_keys {α β : Type} [DecidableEq α]
    (d : List (α × β)) (k : α) :
    dictContains d k = true ↔ k ∈ d.map Prod.fst := by
  induction d with
  | nil => simp [dictContains, dictGet?]
  | cons kv rest ih =>
      by_cases hk : kv.1 = k
      · simp [dictContains, dictGet?, hk]
      · simpa [dictContains, dictGet?, hk, Ne.symm hk] using ih

theorem dictInsert_of_not_contains {α β : Type} [DecidableEq α]
    (d : List (α × β)) (k : α) (v : β) (h : dictContains d k = false) :
    dictInsert d k v = d ++ [(k, v)] := by
  induction d with
  | nil => rfl
  | cons kv rest ih =>
      by_cases hk : kv.1 = k
      · simp [dictContains, dictGet?, hk] at h
      · simp only [dictContains, dictGet?, hk, if_neg] at h
        simp [dictInsert, hk, ih h]

theorem dictPop_map_fst {α β : Type} [DecidableEq α]
    (d : List (α × β)) (k : α) :
    (dictPop d k).map Prod.fst = (d.map Prod.fst).erase k := by
  induction d with
  | nil => rfl
  | cons kv rest ih =>
      by_cases hk : kv.1 = k
      · simp [dictPop, hk, List.erase_cons_head]
      · have hbeq : ¬(kv.1 == k) = true := by simpa using hk
        simp [dictPop, hk, List.erase_cons_tail hbeq, ih]

/-- The shape of the `ConnectionManager` state the claims rely on: no
handle is listed twice, and the handles in `active_connections` are
exactly the keys of `usernames`. -/
def registryInvariant (m : ConnectionManager) : Prop :=
  m.active_connections.Nodup ∧
  (m.usernames.map Prod.fst).Nodup ∧
  ∀ ws, ws ∈ m.active_connections ↔ dictContains m.usernames ws = true

/-- One call on the manager, as issued by the endpoint code. -/
inductive MOp where
  | connect (ws : Nat) (username : String)
  | disconnect (ws : Nat)
  | broadcast (message sender : String)
deriving DecidableEq, Repr

/-- Apply one call.  `broadcast` never touches the state (see
`ConnectionManager.broadcast`); the error branch of `disconnect` is unreachable
under the discipline `wfOps` below imposes. -/
def applyOp (m : ConnectionManager) : MOp → ConnectionManager
  | .connect ws u => m.connect ws u
  | .disconnect ws =>
      match m.disconnect ws with
      | .ok m' => m'
      | .error _ => m
  | .broadcast _ _ => m

def applyOps (m : ConnectionManager) : List MOp → ConnectionManager
  | [] => m
  | op :: rest => applyOps (applyOp m op) rest

/-- The precondition of one call under the discipline of C9: `connect` only
with handles not currently registered, `disconnect` only with handles
currently registered. -/
def wfOp (m : ConnectionManager) : MOp → Bool
  | .connect ws _ => !(m.active_connections.contains ws)
  | .disconnect ws => m.active_connections.contains ws
  | .broadcast _ _ => true

/-- The calling discipline of C9 over a whole call sequence. -/
def wfOps (m : ConnectionManager) : List MOp → Bool
  | [] => true
  | op :: rest => wfOp m op && wfOps (applyOp m op) rest

theorem invariant_connect (m : ConnectionManager) (ws : Nat) (u : String)
    (hinv : registryInvariant m) (hfresh : ws ∉ m.active_connections) :
    registryInvariant (m.connect ws u) := by
  obtain ⟨hnodupA, hnodupK, hiff⟩ := hinv
  have hcon : dictContains m.usernames ws = false := by
    rcases Bool.eq_false_or_eq_true (dictContains m.usernames ws) with h | h
    · exact absurd ((hiff ws).2 h) hfresh
    · exact h
  have hkeys : ws ∉ m.usernames.map Prod.fst := by
    rw [← dictContains_iff_mem_keys, hcon]
    exact Bool.false_ne_true
  have hins := dictInsert_of_not_contains m.usernames ws u hcon
  refine ⟨?_, ?_, ?_⟩
  · refine List.nodup_append.2 ⟨hnodupA, List.nodup_singleton ws, ?_⟩
    intro x hx hx'
    rw [List.mem_singleton] at hx'
    exact hfresh (hx' ▸ hx)
  · show (List.map Prod.fst (dictInsert m.usernames ws u)).Nodup
    rw [hins, List.map_append]
    refine List.nodup_append.2 ⟨hnodupK, by simp, ?_⟩
    intro x hx hx'
    have hxw : x = ws := by simpa using hx'
    exact hkeys (hxw ▸ hx)
  · intro x
    show x ∈ m.active_connections ++ [ws] ↔
      dictContains (dictInsert m.usernames ws u) x = true
    rw [hins, dictContains_iff_mem_keys, List.map_append, List.mem_append,
      List.mem_append]
    simp only [List.map_cons, List.map_nil, List.mem_singleton]
    rw [hiff x, dictContains_iff_mem_keys]

theorem invariant_disconnect (m : ConnectionManager) (ws : Nat)
    (hinv : registryInvariant m) (hmem : ws ∈ m.active_connections) :
    registryInvariant (applyOp m (.disconnect ws)) := by
  obtain ⟨hnodupA, hnodupK, hiff⟩ := hinv
  have happ : applyOp m (.disconnect ws) =
      ⟨m.active_connections.erase ws, dictPop m.usernames ws⟩ := by
    simp [applyOp, ConnectionManager.disconnect, pyListRemove, hmem]
  rw [happ]
  refine ⟨hnodupA.erase ws, ?_, ?_⟩
  · rw [dictPop_map_fst]
    exact hnodupK.erase ws
  · intro x
    rw [dictContains_iff_mem_keys, dictPop_map_fst,
      hnodupA.mem_erase_iff, hnodupK.mem_erase_iff]
    rw [← dictContains_iff_mem_keys]
    exact and_congr_right (fun _ => hiff x)

theorem invariant_applyOps (ops : List MOp) :
    ∀ m, registryInvariant m → wfOps m ops = true →
      registryInvariant (applyOps m ops) := by
  induction ops with
  | nil => intro m h _; exact h
  | cons op rest ih =>
      intro m hinv hwf
      simp only [wfOps, Bool.and_eq_true] at hwf
      obtain ⟨hop, hrest⟩ := hwf
      refine ih _ ?_ hrest
      match op with
      | .connect ws u =>
          have : ws ∉ m.active_connections := by simpa [wfOp] using hop
          exact invariant_connect m ws u hinv this
      | .disconnect ws =>
          have : ws ∈ m.active_connections := by simpa [wfOp] using hop
          exact invariant_disconnect m ws hinv this
      | .broadcast msg s => exact hinv

/-- C9: starting from the empty manager, under the discipline that
`connect` is called only with unregistered handles and `disconnect` only
with registered ones, the handles in `active_connections` are exactly the
keys of `usernames`, no handle is listed twice, and `broadcast` leaves the
manager unchanged. -/
theorem C9_registry_invariant (ops : List MOp)
    (h : wfOps ConnectionManager.empty ops = true) :
    registryInvariant (applyOps ConnectionManager.empty ops) ∧
    (∀ (m : ConnectionManager) (send : Nat → String → Except PyError Unit)
       (message sender : String),
      ∃ att, m.broadcast send message sender = .ok (m, att)) := by
  refine ⟨invariant_applyOps ops ConnectionManager.empty ?_ h, ?_⟩
  · exact ⟨List.nodup_nil, List.nodup_nil, by intro ws; simp [ConnectionManager.empty, dictContains, dictGet?]⟩
  · intro m send message sender
    exact ⟨_, broadcast_eq m send message sender⟩

theorem C9_registry_invariant_witness :
    wfOps ConnectionManager.empty
      [.connect 1 "alice", .connect 2 "bob", .broadcast "hi" "alice", .disconnect 1] = true ∧
    (registryInvariant (applyOps ConnectionManager.empty
        [.connect 1 "alice", .connect 2 "bob", .broadcast "hi" "alice", .disconnect 1]) ∧
     (∀ (m : ConnectionManager) (send : Nat → String → Except PyError Unit)
        (message sender : String),
       ∃ att, m.broadcast send message sender = .ok (m, att))) :=
  ⟨by decide,
   C9_registry_invariant
     [.connect 1 "alice", .connect 2 "bob", .broadcast "hi" "alice", .disconnect 1]
     (by decide)⟩

/-! ### Broadcast fan-out interleaved with connection lifecycle (C5)

`broadcast` iterates `self.active_connections` directly (line 87) and the
`await connection.send_text(...)` inside the loop body is a suspension
point, so the `connect`/`disconnect` calls of other sessions can run between
iterations.  A CPython `for` holds an index into the live list: each
iteration re-checks the index against the current length and yields the
element now at that position.  `fanoutStep`/`runFanout` embed one
in-flight fan-out at exactly this granularity. -/

/-- A fan-out in flight: the shared manager, the index the loop iterator holds
into the live `active_connections`, and the handles delivered so far. -/
structure FanoutState where
  manager : ConnectionManager
  idx : Nat
  delivered : List Nat
deriving DecidableEq, Repr

/-- One scheduler step while the fan-out is in flight: the broadcast task
runs one loop iteration, or the task of another session registers or
deregisters a connection. -/
inductive FanoutAction where
  | send
  | connect (ws : Nat) (username : String)
  | disconnect (ws : Nat)
deriving DecidableEq, Repr

def fanoutStep (s : FanoutState) : FanoutAction → FanoutState
  | .send =>
      match s.manager.active_connections[s.idx]? with
      | some c => { s with delivered := s.delivered ++ [c], idx := s.idx + 1 }
      | none => s          -- the iterator is exhausted: the loop has ended
  | .connect ws u => { s with manager := s.manager.connect ws u }
  | .disconnect ws =>
      match s.manager.disconnect ws with
      | .ok m' => { s with manager := m' }
      | .error _ => s

def runFanout (s : FanoutState) : List FanoutAction → FanoutState
  | [] => s
  | a :: rest => runFanout (fanoutStep s a) rest

/-- C5 counterexample: connections 1 and 2 are registered when the fan-out
starts; after the message reaches connection 1, another task deregisters
connection 1 during the suspension; the live list shrinks to `[2]`, the
index of the iterator (1) now equals its length, and the loop ends — connection
2 was registered at the instant the fan-out started and was never removed,
yet it is not delivered to.  A snapshot taken at the start would have
delivered to it. -/
theorem C5_counterexample :
    (runFanout ⟨⟨[1, 2], [(1, "alice"), (2, "bob")]⟩, 0, []⟩
        [.send, .disconnect 1, .send]).delivered = [1] ∧
    (2 : Nat) ∈ (ConnectionManager.mk [1, 2] [(1, "alice"), (2, "bob")]).active_connections ∧
    (2 : Nat) ∉ (runFanout ⟨⟨[1, 2], [(1, "alice"), (2, "bob")]⟩, 0, []⟩
        [.send, .disconnect 1, .send]).delivered := by
  decide

theorem runFanout_sends (us : List (Nat × String)) (conns : List Nat) :
    ∀ (k i : Nat) (d : List Nat), i + k = conns.length →
      runFanout ⟨⟨conns, us⟩, i, d⟩ (List.replicate k .send) =
        ⟨⟨conns, us⟩, conns.length, d ++ conns.drop i⟩ := by
  intro k
  induction k with
  | zero =>
      intro i d h
      have hi : i = conns.length := by omega
      subst hi
      simp [runFanout, List.drop_length]
  | succ k ih =>
      intro i d h
      have hlt : i < conns.length := by omega
      rw [List.replicate_succ]
      show runFanout (fanoutStep ⟨⟨conns, us⟩, i, d⟩ .send) (List.replicate k .send) = _
      have hstep : fanoutStep ⟨⟨conns, us⟩, i, d⟩ .send =
          ⟨⟨conns, us⟩, i + 1, d ++ [conns[i]]⟩ := by
        simp [fanoutStep, List.getElem?_eq_getElem hlt]
      rw [hstep, ih (i + 1) (d ++ [conns[i]]) (by omega)]
      rw [List.append_assoc, List.singleton_append, ← List.drop_eq_getElem_cons hlt]

/-- C5 amended: `broadcast` iterates the live connection list, not a
snapshot — a deregistration interleaved with the fan-out can skip a
connection that was registered at the start —
but when no register/deregister interleaves with the fan-out, the loop
delivers to exactly the connections registered at its start, in order.
(The code holds no lock at any point, so register/deregister are never
blocked by an in-flight fan-out and no task can deadlock on the registry.) -/
theorem C5_fanout_without_interleaving (conns : List Nat)
    (us : List (Nat × String)) :
    (runFanout ⟨⟨conns, us⟩, 0, []⟩ (List.replicate conns.length .send)).delivered =
      conns := by
  rw [runFanout_sends us conns conns.length 0 [] (by omega)]
  simp

end App
